import Mathlib

/-!
Shallow Lean embedding of `lib/src/common/network_utils.cc` (srsRAN):
address/socket utilities, the RAII socket handle, the per-socket receive
tasks and the multiplexed receive handler (reactor).  External effects
(syscalls such as `socket`, `bind`, `send`, `recvfrom`, `read`) are taken
as explicit oracle inputs describing their outcome, and the functions of
the source are translated statement by statement over those inputs.
-/

namespace srsran

/-! ### Address utilities (`net_utils::set_sockaddr`, lines 40-61) -/

/-- The `AF_INET` address-family constant. -/
def AF_INET : Nat := 2

/-- The `AF_INET6` address-family constant. -/
def AF_INET6 : Nat := 10

/-- The fields of a `sockaddr_in` the code touches: family, the 32-bit
address `sin_addr.s_addr`, and the 16-bit network-order port. -/
structure sockaddr_in where
  sin_family : Nat
  sin_addr : Nat
  sin_port : Nat
deriving DecidableEq

/-- A zero-initialised `sockaddr_in{}`. -/
def sockaddr_zero : sockaddr_in := ⟨0, 0, 0⟩

/-- Embeds `htons`: the C `int` port is converted to a 16-bit value and its two
bytes are swapped (host order assumed little-endian). -/
def htons (port : Int) : Nat :=
  let v := (port % 65536).toNat
  v % 256 * 256 + v / 256

/-- Embeds `net_utils::set_sockaddr(sockaddr_in*, const char*, int)` (lines 40-49).
The `parse` argument is the outcome of `inet_pton`: `some a` means the text
parsed to the 32-bit address `a`, `none` means `inet_pton` failed (in which
case it leaves the destination buffer untouched).  The source assigns
`sin_family` before calling `inet_pton`, and assigns the port only on
success. -/
def set_sockaddr (parse : Option Nat) (addr : sockaddr_in) (port : Int) :
    Bool × sockaddr_in :=
  let addr1 := { addr with sin_family := AF_INET }
  match parse with
  | none => (false, addr1)
  | some a => (true, { addr1 with sin_addr := a, sin_port := htons port })

/-- The fields of a `sockaddr_in6` the code touches. -/
structure sockaddr_in6 where
  sin6_family : Nat
  sin6_addr : Nat
  sin6_port : Nat
deriving DecidableEq

/-- Embeds `net_utils::set_sockaddr(sockaddr_in6*, const char*, int)` (lines 52-61),
the IPv6 overload, same structure as the IPv4 one. -/
def set_sockaddr6 (parse : Option Nat) (addr : sockaddr_in6) (port : Int) :
    Bool × sockaddr_in6 :=
  let addr1 := { addr with sin6_family := AF_INET6 }
  match parse with
  | none => (false, addr1)
  | some a => (true, { addr1 with sin6_addr := a, sin6_port := htons port })

/-! ### `net_utils::bind_addr` (lines 186-215) -/

/-- Embeds `net_utils::bind_addr(int fd, const sockaddr_in&)` (lines 186-200).
`bind_ok` is the outcome of the `bind` syscall on `(fd, addr_in)`. -/
def bind_addr_sa (bind_ok : Bool) (fd : Int) (addr_in : sockaddr_in) : Bool :=
  if fd < 0 then false
  else if bind_ok = false then false
  else true

/-- Embeds `net_utils::bind_addr(int fd, const char*, int, sockaddr_in*)`
(lines 202-215).  `addr_result` is the pointed-to value (`none` = null
pointer); the second component of the result is its final value.  As in the
source, the boolean result of the inner `bind_addr(fd, addr_tmp)` call is
discarded. -/
def bind_addr_str (parse : Option Nat) (bind_ok : Bool) (fd : Int) (port : Int)
    (addr_result : Option sockaddr_in) : Bool × Option sockaddr_in :=
  match set_sockaddr parse sockaddr_zero port with
  | (false, _) => (false, addr_result)
  | (true, addr_tmp) =>
      let _ := bind_addr_sa bind_ok fd addr_tmp
      (true, if addr_result.isSome then some addr_tmp else addr_result)

/-! ### `net_utils::open_socket` (lines 112-184) -/

/-- The three transport protocols of `net_utils::protocol_type`. -/
inductive protocol_type
  | TCP
  | UDP
  | SCTP
deriving DecidableEq

/-- Outcomes of the five SCTP `getsockopt`/`setsockopt` sub-steps of
`open_socket`, in source order: subscribe to `SCTP_EVENTS`, get
`SCTP_RTOINFO`, set `SCTP_RTOINFO`, get `SCTP_INITMSG`, set `SCTP_INITMSG`. -/
structure sctp_opt_oracle where
  subscribe_ok : Bool
  get_rto_ok : Bool
  set_rto_ok : Bool
  get_initmsg_ok : Bool
  set_initmsg_ok : Bool
deriving DecidableEq

/-- Embeds `net_utils::open_socket` (lines 112-184).  `socket_fd` is the result of
the `socket` syscall (`-1` = failure).  For SCTP, the source logs and
continues when the `SCTP_EVENTS` subscription fails (lines 129-132) and when
reading the existing `SCTP_INITMSG` configuration fails (lines 166-168);
it returns `-1` when reading `SCTP_RTOINFO` fails (lines 143-146), when
setting `SCTP_RTOINFO` fails (lines 158-161) and when setting `SCTP_INITMSG`
fails (lines 177-180). -/
def open_socket (socket_fd : Int) (protocol : protocol_type)
    (o : sctp_opt_oracle) : Int :=
  if socket_fd = -1 then -1
  else if protocol = protocol_type.SCTP then
    -- `subscribe_ok = false` is logged only; control flow does not branch on it
    if o.get_rto_ok = false then -1
    else if o.set_rto_ok = false then -1
    -- `get_initmsg_ok = false` is logged only; control flow does not branch on it
    else if o.set_initmsg_ok = false then -1
    else socket_fd
  else socket_fd

/-! ### `net_utils::tcp_send` (lines 389-405) -/

/-- The loop body of `tcp_send`, recursing over the trace `sends` of
successive `::send` return values.  `remaining` is `nbytes_remaining`.
Returns `none` when the trace is exhausted while the loop would still run
(the oracle provided too few results). -/
def tcp_send_go (nbytes : Int) : List Int → Int → Option Int
  | [], remaining =>
      if remaining > 0 then none else some (nbytes - remaining)
  | i :: rest, remaining =>
      if remaining > 0 then
        if i < 1 then some i else tcp_send_go nbytes rest (remaining - i)
      else some (nbytes - remaining)

/-- Embeds `net_utils::tcp_send(int, const void*, size_t)` (lines 389-405):
loops calling `::send` (whose successive return values are the trace
`sends`); when a call returns less than 1 the function returns that value,
otherwise, once `nbytes_remaining` reaches 0, it returns
`nbytes - nbytes_remaining`. -/
def tcp_send (sends : List Int) (nbytes : Nat) : Option Int :=
  tcp_send_go (nbytes : Int) sends (nbytes : Int)

/-! ### `socket_handler_t` (lines 246-303) -/

/-- The state of a `socket_handler_t`: owned descriptor and bound address. -/
structure socket_handler_t where
  sockfd : Int
  addr : sockaddr_in
deriving DecidableEq

/-- Embeds `socket_handler_t::socket_handler_t(socket_handler_t&&)` (lines 246-252):
returns `(destination, source after the move)`.  The source copies
`sockfd` and `addr` into the destination and then assigns
`other.sockfd = 0` and `other.addr = {}`. -/
def socket_handler_t.move_construct (other : socket_handler_t) :
    socket_handler_t × socket_handler_t :=
  (⟨other.sockfd, other.addr⟩, ⟨0, sockaddr_zero⟩)

/-- Embeds `socket_handler_t::operator=(socket_handler_t&&)` (lines 257-267) for
`this ≠ &other` (on self-assignment the source returns unchanged):
returns `(this after, other after)`.  Like the move constructor it assigns
`other.sockfd = 0` and `other.addr = {}`. -/
def socket_handler_t.move_assign (_this other : socket_handler_t) :
    socket_handler_t × socket_handler_t :=
  (⟨other.sockfd, other.addr⟩, ⟨0, sockaddr_zero⟩)

/-- Embeds `socket_handler_t::close` (lines 269-275): if `sockfd >= 0` the
descriptor is passed to the `::close` syscall and the field is set to `-1`.
Returns the descriptor handed to `::close` (if any) and the updated
handle. -/
def socket_handler_t.close (s : socket_handler_t) :
    Option Int × socket_handler_t :=
  if 0 ≤ s.sockfd then (some s.sockfd, { s with sockfd := -1 })
  else (none, s)

/-! ### `rx_multisocket_handler` state (lines 500-696)

The reactor-thread state the claims mention: the read end of the control
pipe, the key set of the `std::map` `active_sockets` (the attached tasks
play no role in the claimed properties), the `fd_set` `total_fd_set`, and
`max_fd`.  The map is key-ordered, so `active_sockets.rbegin()->first` is
the maximum key, modelled with `Finset.max'`. -/

/-- Reactor-thread state of `rx_multisocket_handler::run_thread`. -/
structure reactor_state where
  pipe_rd : Int
  active_sockets : Finset Int
  total_fd_set : Finset Int
  max_fd : Int
deriving DecidableEq

/-- The initialisation of `run_thread` (lines 625-631): zero the fd set,
`max_fd = 0`, `FD_SET(pipefd[0])`, `max_fd = max(pipefd[0], max_fd)`. -/
def reactor_init (pipe_rd : Int) : reactor_state :=
  ⟨pipe_rd, ∅, {pipe_rd}, max pipe_rd 0⟩

/-- The `NEW_FD` branch of `run_thread` (lines 679-686): if
`msg.new_fd >= 0`, `FD_SET(msg.new_fd, &total_fd_set)` and
`max_fd = std::max(max_fd, msg.new_fd)`; otherwise only an error is
logged. -/
def new_fd_step (fd : Int) (st : reactor_state) : reactor_state :=
  if 0 ≤ fd then
    { st with total_fd_set := insert fd st.total_fd_set,
              max_fd := max st.max_fd fd }
  else st

/-- Embeds `rx_multisocket_handler::remove_socket_unprotected` (lines 607-621).
If `fd < 0` the function logs and returns `end()` without mutating
anything.  Otherwise it runs `active_sockets.erase(active_sockets.find(fd))`
— when `fd` is not a key, `find` yields the past-the-end iterator and
`std::map::erase` on it is undefined behaviour, modelled as `none`.  When
`fd` is a key, the entry is erased, `FD_CLR(fd, total_fd_set)` runs, and
`max_fd` is recomputed as `pipefd[0]` if the map became empty, else
`max(pipefd[0], active_sockets.rbegin()->first)`. -/
def remove_socket_unprotected (fd : Int) (st : reactor_state) :
    Option reactor_state :=
  if fd < 0 then some st
  else if fd ∈ st.active_sockets then
    let as1 := st.active_sockets.erase fd
    some { st with
      active_sockets := as1,
      total_fd_set := st.total_fd_set.erase fd,
      max_fd :=
        if h : as1 = ∅ then st.pipe_rd
        else max st.pipe_rd (as1.max' (Finset.nonempty_iff_ne_empty.mpr h)) }
  else none

/-! ### Registration API (lines 561-605) -/

/-- Result of `rx_multisocket_handler::add_socket_handler`; the source
returns `false` on each error branch, distinguished by its log line. -/
inductive add_result
  | INVALID_FD
  | DUPLICATE_FD
  | CTRL_WRITE_ERROR
  | OK
deriving DecidableEq

/-- Embeds `rx_multisocket_handler::add_socket_handler` (lines 561-586):
rejects `fd < 0`; rejects `fd` already in `active_sockets`; otherwise
inserts the entry and writes a `NEW_FD` control message (`write_ok` is the
outcome of the full-sized pipe write; on failure the entry stays
inserted). -/
def add_socket_handler (write_ok : Bool) (fd : Int) (st : reactor_state) :
    add_result × reactor_state :=
  if fd < 0 then (add_result.INVALID_FD, st)
  else if fd ∈ st.active_sockets then (add_result.DUPLICATE_FD, st)
  else
    let st1 := { st with active_sockets := insert fd st.active_sockets }
    if write_ok then (add_result.OK, st1)
    else (add_result.CTRL_WRITE_ERROR, st1)

/-- Result of `rx_multisocket_handler::remove_socket`. -/
inductive remove_result
  | NOT_FOUND
  | CTRL_WRITE_ERROR
  | OK
deriving DecidableEq

/-- Embeds `rx_multisocket_handler::remove_socket` (lines 588-605): fails when
`fd` is not in `active_sockets`; otherwise writes an `RM_FD` control
message (`write_ok` its outcome).  The map itself is not mutated here. -/
def remove_socket (write_ok : Bool) (fd : Int) (st : reactor_state) :
    remove_result × reactor_state :=
  if fd ∈ st.active_sockets then
    if write_ok then (remove_result.OK, st)
    else (remove_result.CTRL_WRITE_ERROR, st)
  else (remove_result.NOT_FOUND, st)

/-! ### Control messages (lines 668-694) -/

/-- The command tag of `ctrl_cmd_t`.  The enum itself is declared in
`srsran/common/network_utils.h` (not part of the sources at hand); the
constructors follow its use in `run_thread` and the record of the spec
{ command ∈ {EXIT, ADD_FD, REMOVE_FD}, fd }, with `other` standing for any
unrecognised raw value, handled by the `default` branch of the switch. -/
inductive cmd_id_t
  | EXIT
  | NEW_FD
  | RM_FD
  | other (raw : Int)
deriving DecidableEq

/-- The control record.  Modelled from the spec: a fixed-size record
{ command, fd } whose exact layout lives in the header
`srsran/common/network_utils.h`, absent from the sources at hand; the two
fields are those `run_thread` reads. -/
structure ctrl_cmd_t where
  cmd : cmd_id_t
  new_fd : Int
deriving DecidableEq

/-- Modelled from the spec: `sizeof(ctrl_cmd_t)` — the byte size of the
fixed-size control record (a 4-byte enum tag and a 4-byte `int`), declared
in the header absent from the sources at hand.  Only its positivity
matters to the claims. -/
def ctrl_record_size : Nat := 8

/-- Whether the loop keeps running after a control message. -/
inductive loop_ctrl
  | continue_loop
  | exit_loop
deriving DecidableEq

/-- The switch of `run_thread` on a control message (lines 675-693):
`EXIT` stops the loop, `NEW_FD` runs the wait-set addition step, `RM_FD`
calls `remove_socket_unprotected` (whose undefined-behaviour case
propagates as `none`), anything else is logged and ignored. -/
def ctrl_dispatch (msg : ctrl_cmd_t) (st : reactor_state) :
    loop_ctrl × Option reactor_state :=
  match msg.cmd with
  | cmd_id_t.EXIT => (loop_ctrl.exit_loop, some st)
  | cmd_id_t.NEW_FD => (loop_ctrl.continue_loop, some (new_fd_step msg.new_fd st))
  | cmd_id_t.RM_FD => (loop_ctrl.continue_loop, remove_socket_unprotected msg.new_fd st)
  | cmd_id_t.other _ => (loop_ctrl.continue_loop, some st)

/-- The control-pipe read block of `run_thread` (lines 668-694): `nrd` is
the value returned by `read(pipefd[0], &msg, sizeof(msg))` and `msg` the
record as read.  The source treats `nrd <= 0` as a read error (logged,
loop continues with the state unchanged) and dispatches on the message for
any `nrd > 0`; `nrd` is never compared against `sizeof(msg)`
(`ctrl_record_size`). -/
def handle_ctrl_msg (nrd : Int) (msg : ctrl_cmd_t) (st : reactor_state) :
    loop_ctrl × Option reactor_state :=
  if nrd ≤ 0 then (loop_ctrl.continue_loop, some st)
  else ctrl_dispatch msg st

/-! ### `recvfrom_pdu_task::operator()` (lines 423-446) -/

/-- Outcome of the `recvfrom` syscall: a datagram of `n` bytes with source
address `src`, a would-block condition (`-1` with `errno == EAGAIN`), or a
hard error (`-1` with any other `errno`). -/
inductive recv_outcome
  | data (n : Nat) (src : sockaddr_in)
  | eagain
  | hard_error
deriving DecidableEq

/-- Embeds `recvfrom_pdu_task::operator()(int fd)` (lines 423-446).  `alloc_ok`
is whether `make_byte_buffer()` produced a buffer.  The result pairs the
returned `still_valid` flag with the `(N_bytes, from)` handed to the
registered handler, `none` when the handler is not invoked.  Every branch
returns `true`; the handler runs exactly once, only in the data branch,
with the buffer length set to the `recvfrom` byte count. -/
def recvfrom_pdu_task (alloc_ok : Bool) (oc : recv_outcome) :
    Bool × Option (Nat × sockaddr_in) :=
  if alloc_ok = false then (true, none)
  else
    match oc with
    | recv_outcome.hard_error => (true, none)
    | recv_outcome.eagain => (true, none)
    | recv_outcome.data n src => (true, some (n, src))

/-! ### The wait-set invariant of `run_thread` -/

/-- Invariant tying `max_fd` to the wait set: the control descriptor is in
`total_fd_set`, is not a map key, `total_fd_set` only holds the control
descriptor and map keys, and `max_fd` bounds the control descriptor and
every member of `total_fd_set` (so `select(max_fd + 1, ...)` covers the
control descriptor and all registered descriptors). -/
def wait_set_invariant (st : reactor_state) : Prop :=
  st.pipe_rd ∈ st.total_fd_set ∧
  st.pipe_rd ∉ st.active_sockets ∧
  (∀ g ∈ st.total_fd_set, g = st.pipe_rd ∨ g ∈ st.active_sockets) ∧
  st.pipe_rd ≤ st.max_fd ∧
  ∀ g ∈ st.total_fd_set, g ≤ st.max_fd

/-! ## Theorems -/

/-- C1.  Move-construction and move-assignment from a handle owning
descriptor 5 leave the descriptor of the source at 0, not at the invalid
sentinel -1, and a subsequent `close` on the moved-from handle passes
descriptor 0 to the `::close` syscall instead of closing nothing. -/
theorem socket_handler_move_source_not_invalidated :
    (socket_handler_t.move_construct ⟨5, ⟨2, 7, 80⟩⟩).2.sockfd = 0 ∧
    (socket_handler_t.move_assign ⟨4, sockaddr_zero⟩ ⟨5, ⟨2, 7, 80⟩⟩).2.sockfd = 0 ∧
    (socket_handler_t.close (socket_handler_t.move_construct ⟨5, ⟨2, 7, 80⟩⟩).2).1
      = some 0 ∧
    (0 : Int) ≠ -1 := by
  refine ⟨rfl, rfl, rfl, by decide⟩

/-- C2.  Processing a `RM_FD` removal for a descriptor absent from the
Active Socket Set (here fd 5 against a reactor whose set is empty) runs
`std::map::erase` on the past-the-end iterator, which is undefined
behaviour (`none` in the embedding) rather than a well-defined idempotent
no-op. -/
theorem remove_socket_unprotected_absent_undefined :
    remove_socket_unprotected 5 ⟨3, ∅, {3}, 3⟩ = none := by
  decide

/-- C3.  The `(descriptor, text, port)` overload of `bind_addr` discards
the result of the underlying bind: with a parsable address, a failing bind
syscall and descriptor 3, the inner `bind_addr` returns `false`, yet the
overload returns success together with the resolved address. -/
theorem bind_addr_str_ignores_bind_failure :
    bind_addr_str (some 2130706433) false 3 8000 (some sockaddr_zero)
      = (true, some ⟨AF_INET, 2130706433, htons 8000⟩) ∧
    bind_addr_sa false 3 ⟨AF_INET, 2130706433, htons 8000⟩ = false := by
  refine ⟨rfl, rfl⟩

/-- C4 counterexample.  A partial control-pipe read of 1 byte (more than
zero, fewer than the record size) is not treated as a protocol error: the
reactor dispatches the message as read — here a `NEW_FD` for descriptor 7,
which mutates the wait set. -/
theorem ctrl_partial_read_acted_upon :
    (0 : Int) < 1 ∧ (1 : Int) < (ctrl_record_size : Int) ∧
    handle_ctrl_msg 1 ⟨cmd_id_t.NEW_FD, 7⟩ ⟨3, ∅, {3}, 3⟩
      = (loop_ctrl.continue_loop, some (new_fd_step 7 ⟨3, ∅, {3}, 3⟩)) ∧
    (new_fd_step 7 ⟨3, ∅, {3}, 3⟩).max_fd = 7 ∧
    7 ∈ (new_fd_step 7 ⟨3, ∅, {3}, 3⟩).total_fd_set ∧
    (⟨3, ∅, {3}, 3⟩ : reactor_state).max_fd = 3 ∧
    7 ∉ (⟨3, ∅, {3}, 3⟩ : reactor_state).total_fd_set := by
  refine ⟨by decide, by decide, rfl, rfl, by decide, rfl, by decide⟩

/-- C5 counterexample.  With the `socket` syscall succeeding (descriptor 3)
and every SCTP sub-step succeeding except the read of the existing
`SCTP_RTOINFO` configuration, `open_socket` returns -1 instead of the open
descriptor: the RTO read is fatal, contradicting the claim that only the
two set adjustments are. -/
theorem open_socket_rto_get_failure_fatal :
    open_socket 3 protocol_type.SCTP ⟨true, false, true, true, true⟩ = -1 ∧
    (3 : Int) ≠ -1 := by
  refine ⟨rfl, by decide⟩

/-- C6 counterexample.  Sending 10 bytes with a first `send` transmitting
3 bytes and a second failing with -1: 3 bytes were actually sent, yet
`tcp_send` returns -1, not 3. -/
theorem tcp_send_partial_progress_lost :
    tcp_send [3, -1] 10 = some (-1) ∧ (-1 : Int) ≠ 3 := by
  refine ⟨rfl, by decide⟩

/-- C7 counterexample.  On parse failure (`inet_pton` rejecting the text)
the IPv4 `set_sockaddr` returns `false` but has already written
`AF_INET` into `sin_family` of an output structure whose family was 0:
a field of the output is modified. -/
theorem set_sockaddr_modifies_family_on_failure :
    (set_sockaddr none ⟨0, 5, 7⟩ 80).1 = false ∧
    (set_sockaddr none ⟨0, 5, 7⟩ 80).2 ≠ ⟨0, 5, 7⟩ := by
  refine ⟨rfl, by decide⟩

/-- C4 amended.  The reactor treats exactly the control-pipe reads
returning zero or fewer bytes as read errors (logged, loop continues,
state untouched); any read returning a positive byte count — partial or
full — is dispatched through the command switch as a valid message. -/
theorem ctrl_read_error_only_nonpositive (nrd : Int) (msg : ctrl_cmd_t)
    (st : reactor_state) :
    (nrd ≤ 0 → handle_ctrl_msg nrd msg st = (loop_ctrl.continue_loop, some st)) ∧
    (0 < nrd → handle_ctrl_msg nrd msg st = ctrl_dispatch msg st) := by
  constructor
  · intro h
    unfold handle_ctrl_msg
    rw [if_pos h]
  · intro h
    unfold handle_ctrl_msg
    rw [if_neg (not_le.mpr h)]

/-- Witness for the amended theorem of C4 at a read of -1 bytes and a partial
read of 1 byte. -/
theorem ctrl_read_error_only_nonpositive_witness :
    handle_ctrl_msg (-1) ⟨cmd_id_t.EXIT, 0⟩ (reactor_init 3)
      = (loop_ctrl.continue_loop, some (reactor_init 3)) ∧
    handle_ctrl_msg 1 ⟨cmd_id_t.EXIT, 0⟩ (reactor_init 3)
      = ctrl_dispatch ⟨cmd_id_t.EXIT, 0⟩ (reactor_init 3) :=
  ⟨(ctrl_read_error_only_nonpositive (-1) ⟨cmd_id_t.EXIT, 0⟩ (reactor_init 3)).1
      (by decide),
   (ctrl_read_error_only_nonpositive 1 ⟨cmd_id_t.EXIT, 0⟩ (reactor_init 3)).2
      (by decide)⟩

/-- C5 amended.  For an SCTP socket whose `socket` syscall succeeded, the
fatal configuration sub-steps are the read of the existing RTO
configuration, the RTO set, and the INITMSG set: `open_socket` returns the
descriptor exactly when those three succeed (the event-subscription and
INITMSG-read outcomes, left unconstrained here, never affect the result)
and returns -1 when any of the three fails. -/
theorem open_socket_sctp_fatal_steps (fd : Int) (o : sctp_opt_oracle)
    (h : fd ≠ -1) :
    (o.get_rto_ok = true → o.set_rto_ok = true → o.set_initmsg_ok = true →
      open_socket fd protocol_type.SCTP o = fd) ∧
    (o.get_rto_ok = false ∨ o.set_rto_ok = false ∨ o.set_initmsg_ok = false →
      open_socket fd protocol_type.SCTP o = -1) := by
  obtain ⟨s, grto, srto, ginit, sinit⟩ := o
  cases grto <;> cases srto <;> cases sinit <;> simp [open_socket, h]

/-- Witness for the amended theorem of C5: both non-fatal sub-steps failing
(subscription and INITMSG read) while the three fatal ones succeed still
returns the open descriptor 3. -/
theorem open_socket_sctp_fatal_steps_witness :
    open_socket 3 protocol_type.SCTP ⟨false, true, true, false, true⟩ = 3 :=
  (open_socket_sctp_fatal_steps 3 ⟨false, true, true, false, true⟩
      (by decide)).1 rfl rfl rfl

/-- Exhaustive description of the result of `tcp_send_go`: a returned value is
either a trace element smaller than 1 (the return value of the failing
`send` call) or at least `nbytes` (the loop ran to completion). -/
theorem tcp_send_go_cases (nbytes : Int) :
    ∀ (sends : List Int) (remaining r : Int),
      tcp_send_go nbytes sends remaining = some r →
      (r < 1 ∧ r ∈ sends) ∨ nbytes ≤ r := by
  intro sends
  induction sends with
  | nil =>
      intro remaining r h
      unfold tcp_send_go at h
      by_cases hr : remaining > 0
      · rw [if_pos hr] at h
        exact absurd h (by simp)
      · rw [if_neg hr] at h
        right
        have : nbytes - remaining = r := Option.some.inj h
        omega
  | cons i rest ih =>
      intro remaining r h
      unfold tcp_send_go at h
      by_cases hr : remaining > 0
      · rw [if_pos hr] at h
        by_cases hi : i < 1
        · rw [if_pos hi] at h
          have : i = r := Option.some.inj h
          subst this
          exact Or.inl ⟨hi, List.mem_cons_self i rest⟩
        · rw [if_neg hi] at h
          rcases ih (remaining - i) r h with ⟨hlt, hmem⟩ | hge
          · exact Or.inl ⟨hlt, List.mem_cons_of_mem i hmem⟩
          · exact Or.inr hge
      · rw [if_neg hr] at h
        right
        have : nbytes - remaining = r := Option.some.inj h
        omega

/-- C6 amended.  `tcp_send` loops until every byte is transmitted or a
`send` call makes no progress or errors; in the latter case it returns
the return value of that call (0 or -1), discarding the count of bytes already
sent, and otherwise the loop completed and the result is at least the full
requested count (exactly the full count when, as `send` guarantees, no
call reports more bytes than requested). -/
theorem tcp_send_return_value (sends : List Int) (nbytes : Nat) (r : Int)
    (h : tcp_send sends nbytes = some r) :
    (r < 1 ∧ r ∈ sends) ∨ (nbytes : Int) ≤ r :=
  tcp_send_go_cases (nbytes : Int) sends (nbytes : Int) r h

/-- Witness for the amended theorem of C6 on the trace `[3, -1]` with 10
requested bytes: the result -1 is the value returned by the failing send call. -/
theorem tcp_send_return_value_witness :
    ((-1 : Int) < 1 ∧ (-1 : Int) ∈ [(3 : Int), -1]) ∨ ((10 : Nat) : Int) ≤ -1 :=
  tcp_send_return_value [3, -1] 10 (-1) rfl

/-- C7 amended.  On parse failure both address conversions return the
parse error with the address bytes and the port of the output structure
unmodified; the family field, however, has already been set (`AF_INET`
resp. `AF_INET6`) before the parse was attempted, so the conversion is not
entirely side-effect-free. -/
theorem set_sockaddr_parse_failure_frame (addr : sockaddr_in)
    (addr6 : sockaddr_in6) (port : Int) :
    set_sockaddr none addr port = (false, { addr with sin_family := AF_INET }) ∧
    set_sockaddr6 none addr6 port
      = (false, { addr6 with sin6_family := AF_INET6 }) :=
  ⟨rfl, rfl⟩

/-- C8.  Over any reactor state whose Active Socket Set holds only
nonnegative descriptors (an invariant of the registration API, which
rejects negative ones): registering a negative descriptor fails with the
invalid-descriptor error and leaves the state unchanged; registering a
descriptor already present fails with the duplicate error and leaves the
state unchanged; unregistering an absent descriptor fails with the
not-found error and leaves the state unchanged. -/
theorem register_unregister_error_cases (write_ok : Bool) (fd : Int)
    (st : reactor_state) (hst : ∀ x ∈ st.active_sockets, 0 ≤ x) :
    (fd < 0 →
      add_socket_handler write_ok fd st = (add_result.INVALID_FD, st)) ∧
    (fd ∈ st.active_sockets →
      add_socket_handler write_ok fd st = (add_result.DUPLICATE_FD, st)) ∧
    (fd ∉ st.active_sockets →
      remove_socket write_ok fd st = (remove_result.NOT_FOUND, st)) := by
  refine ⟨?_, ?_, ?_⟩
  · intro h
    unfold add_socket_handler
    rw [if_pos h]
  · intro h
    unfold add_socket_handler
    rw [if_neg (not_lt.mpr (hst fd h)), if_pos h]
  · intro h
    unfold remove_socket
    rw [if_neg h]

/-- Witness for C8 on the state with control descriptor 3 and Active
Socket Set {5}. -/
theorem register_unregister_error_cases_witness :
    add_socket_handler true (-1) ⟨3, {5}, {3, 5}, 5⟩
      = (add_result.INVALID_FD, ⟨3, {5}, {3, 5}, 5⟩) ∧
    add_socket_handler true 5 ⟨3, {5}, {3, 5}, 5⟩
      = (add_result.DUPLICATE_FD, ⟨3, {5}, {3, 5}, 5⟩) ∧
    remove_socket true 7 ⟨3, {5}, {3, 5}, 5⟩
      = (remove_result.NOT_FOUND, ⟨3, {5}, {3, 5}, 5⟩) :=
  ⟨(register_unregister_error_cases true (-1) ⟨3, {5}, {3, 5}, 5⟩
      (by decide)).1 (by decide),
   (register_unregister_error_cases true 5 ⟨3, {5}, {3, 5}, 5⟩
      (by decide)).2.1 (by decide),
   (register_unregister_error_cases true 7 ⟨3, {5}, {3, 5}, 5⟩
      (by decide)).2.2 (by decide)⟩

/-- C9.  A Datagram-task invocation that receives a pending datagram of
`n` bytes (buffer allocation succeeding) hands the handler exactly one
buffer of length `n` together with the source address and reports
`still_valid = true`; an invocation hitting the would-block condition
reports `still_valid = true` without invoking the handler, whatever the
allocation outcome. -/
theorem recvfrom_pdu_task_delivery (n : Nat) (src : sockaddr_in)
    (alloc_ok : Bool) :
    recvfrom_pdu_task true (recv_outcome.data n src) = (true, some (n, src)) ∧
    recvfrom_pdu_task alloc_ok recv_outcome.eagain = (true, none) := by
  refine ⟨rfl, ?_⟩
  cases alloc_ok <;> rfl

/-- The wait-set invariant holds after the initialisation of
`run_thread`. -/
theorem wait_set_invariant_init (p : Int) :
    wait_set_invariant (reactor_init p) := by
  unfold wait_set_invariant reactor_init
  refine ⟨by simp, by simp, ?_, le_max_left _ _, ?_⟩
  · intro g hg
    simp only [Finset.mem_singleton] at hg
    exact Or.inl hg
  · intro g hg
    simp only [Finset.mem_singleton] at hg
    subst hg
    exact le_max_left _ _

/-- The `NEW_FD` step preserves the wait-set invariant, assuming — as the
registration protocol guarantees, the caller having inserted the map
entry before writing the message — that the added descriptor is a key of
the Active Socket Set. -/
theorem wait_set_invariant_new_fd (fd : Int) (st : reactor_state)
    (hinv : wait_set_invariant st) (hmem : fd ∈ st.active_sockets) :
    wait_set_invariant (new_fd_step fd st) := by
  obtain ⟨h1, h2, h3, h4, h5⟩ := hinv
  unfold wait_set_invariant new_fd_step
  by_cases hfd : 0 ≤ fd
  · rw [if_pos hfd]
    refine ⟨Finset.mem_insert_of_mem h1, h2, ?_, le_trans h4 (le_max_left _ _), ?_⟩
    · intro g hg
      rcases Finset.mem_insert.mp hg with rfl | hg'
      · exact Or.inr hmem
      · exact h3 g hg'
    · intro g hg
      rcases Finset.mem_insert.mp hg with rfl | hg'
      · exact le_max_right _ _
      · exact le_trans (h5 g hg') (le_max_left _ _)
  · rw [if_neg hfd]
    exact ⟨h1, h2, h3, h4, h5⟩

/-- The removal step preserves the wait-set invariant whenever it is
well-defined (every case except the undefined-behaviour one): the
recomputation of `max_fd` from the control descriptor and the largest
remaining map key again bounds the whole wait set. -/
theorem wait_set_invariant_remove (fd : Int) (st st' : reactor_state)
    (hinv : wait_set_invariant st)
    (heq : remove_socket_unprotected fd st = some st') :
    wait_set_invariant st' := by
  obtain ⟨h1, h2, h3, h4, h5⟩ := hinv
  unfold remove_socket_unprotected at heq
  by_cases hneg : fd < 0
  · rw [if_pos hneg] at heq
    cases Option.some.inj heq
    exact ⟨h1, h2, h3, h4, h5⟩
  · rw [if_neg hneg] at heq
    by_cases hmem : fd ∈ st.active_sockets
    · rw [if_pos hmem] at heq
      simp only [] at heq
      cases Option.some.inj heq
      have hpne : st.pipe_rd ≠ fd := fun h => h2 (h ▸ hmem)
      unfold wait_set_invariant
      refine ⟨Finset.mem_erase.mpr ⟨hpne, h1⟩,
              fun h => h2 (Finset.mem_of_mem_erase h), ?_, ?_, ?_⟩
      · intro g hg
        obtain ⟨hgfd, hgtot⟩ := Finset.mem_erase.mp hg
        rcases h3 g hgtot with hgp | hga
        · exact Or.inl hgp
        · exact Or.inr (Finset.mem_erase.mpr ⟨hgfd, hga⟩)
      · by_cases he : st.active_sockets.erase fd = ∅
        · rw [dif_pos he]
        · rw [dif_neg he]
          exact le_max_left _ _
      · intro g hg
        obtain ⟨hgfd, hgtot⟩ := Finset.mem_erase.mp hg
        rcases h3 g hgtot with hgp | hga
        · subst hgp
          by_cases he : st.active_sockets.erase fd = ∅
          · rw [dif_pos he]
          · rw [dif_neg he]
            exact le_max_left _ _
        · have hga' : g ∈ st.active_sockets.erase fd :=
            Finset.mem_erase.mpr ⟨hgfd, hga⟩
          have he : ¬ st.active_sockets.erase fd = ∅ := by
            intro he
            rw [he] at hga'
            exact absurd hga' (Finset.not_mem_empty g)
          rw [dif_neg he]
          exact le_trans (Finset.le_max' _ g hga') (le_max_right _ _)
    · rw [if_neg hmem] at heq
      exact absurd heq (by simp)

/-- C10.  At loop entry `max_fd` bounds the control descriptor and every
descriptor of the readiness universe `total_fd_set` (so
`select(max_fd + 1, ...)` covers the control descriptor and all registered
descriptors), and this invariant is preserved both by the `NEW_FD`
addition step (the descriptor being a map key, as the registration
protocol inserts it before the message is sent) and by every well-defined
removal step, which recomputes `max_fd` from the key-ordered Active Socket
Set. -/
theorem reactor_max_fd_invariant (p fd : Int) (st st' : reactor_state) :
    wait_set_invariant (reactor_init p) ∧
    (wait_set_invariant st → fd ∈ st.active_sockets →
      wait_set_invariant (new_fd_step fd st)) ∧
    (wait_set_invariant st → remove_socket_unprotected fd st = some st' →
      wait_set_invariant st') :=
  ⟨wait_set_invariant_init p,
   fun h1 h2 => wait_set_invariant_new_fd fd st h1 h2,
   fun h1 h2 => wait_set_invariant_remove fd st st' h1 h2⟩

/-- Witness for C10: the invariant after adding descriptor 5 to the wait
set of a reactor whose map holds {5}, and after the removal of descriptor
5 from a reactor whose map holds {5} and whose wait set is {3, 5}. -/
theorem reactor_max_fd_invariant_witness :
    wait_set_invariant (new_fd_step 5 ⟨3, {5}, {3}, 3⟩) ∧
    wait_set_invariant ⟨3, Finset.erase {5} 5, Finset.erase {3, 5} 5, 3⟩ :=
  ⟨(reactor_max_fd_invariant 3 5 ⟨3, {5}, {3}, 3⟩
      ⟨3, Finset.erase {5} 5, Finset.erase {3, 5} 5, 3⟩).2.1
      (by unfold wait_set_invariant; decide) (by decide),
   (reactor_max_fd_invariant 3 5 ⟨3, {5}, {3, 5}, 5⟩
      ⟨3, Finset.erase {5} 5, Finset.erase {3, 5} 5, 3⟩).2.2
      (by unfold wait_set_invariant; decide) (by rfl)⟩

end srsran
